import Mathlib

/-!
# PatioMap: yard map layout, rendering and hit testing

A shallow embedding of `src/backend/static/patio-map.js` (class `PatioMap`).

* Numbers are elements of an arbitrary linear ordered field `K` (exact arithmetic); the
  definitions run at `K = ℚ` and the theorems about `Math.sin`, `Math.cos` and `Math.sqrt`
  are stated at `K = ℝ`.
* `Math.sin`, `Math.cos` and `Math.sqrt` are the fields of a `JsMath K` record passed to the
  functions that call them.
* An optional field of a vehicle record is an `Option`; `none` is the JavaScript `undefined`.
* A coordinate that JavaScript computes as `NaN` is `none`: the canvas ignores a drawing call
  with a non-finite argument, `NaN` is falsy and every comparison with `NaN` is false.
* Canvas output is recorded as the values the drawing calls receive.
-/

namespace PatioMap

/-! ## JavaScript object lookup -/

/-- Names of the properties a plain object inherits from `Object.prototype`. -/
def objectPrototypeKeys : List String :=
  ["constructor", "__proto__", "hasOwnProperty", "isPrototypeOf", "propertyIsEnumerable",
   "toLocaleString", "toString", "valueOf", "__defineGetter__", "__defineSetter__",
   "__lookupGetter__", "__lookupSetter__"]

/-- Result of `obj[key]` on an object literal: an own property, a property found on the
prototype chain (a function or object, hence truthy), or `undefined`. -/
inductive Lookup (α : Type) where
  | own (v : α)
  | inherited (key : String)
  | undefined
  deriving DecidableEq, Repr

/-- A value assigned to `fillStyle` or `strokeStyle`: a CSS colour string, or the inherited
object that `colors[key]` returned for a key of `Object.prototype`. -/
inductive Paint where
  | css (s : String)
  | inheritedObject (key : String)
  deriving DecidableEq, Repr

/-! ## Configuration (constructor, lines 17-31) -/

/-- The object `this.config.colors`. -/
structure Colors where
  disponivel : String
  em_uso : String
  manutencao : String
  parada : String
  background : String
  grid : String
  text : String
  zone : String
  deriving DecidableEq, Repr

/-- The object `this.config`. -/
structure Config (K : Type) where
  gridSize : K
  padding : K
  motoRadius : K
  colors : Colors

/-- The value the constructor stores in `this.config.colors`. -/
def colors : Colors :=
  Colors.mk "#4ade80" "#f59e0b" "#ef4444" "#94a3b8" "#1e293b" "#334155" "#e2e8f0" "#475569"

/-- The value the constructor stores in `this.config`. -/
def config {K : Type} [LinearOrderedField K] : Config K :=
  Config.mk 50 40 15 colors

/-- The expression `colors[key]` for a string key. -/
def Colors.get (c : Colors) (key : String) : Lookup String :=
  if key = "disponivel" then Lookup.own c.disponivel
  else if key = "em_uso" then Lookup.own c.em_uso
  else if key = "manutencao" then Lookup.own c.manutencao
  else if key = "parada" then Lookup.own c.parada
  else if key = "background" then Lookup.own c.background
  else if key = "grid" then Lookup.own c.grid
  else if key = "text" then Lookup.own c.text
  else if key = "zone" then Lookup.own c.zone
  else if key ∈ objectPrototypeKeys then Lookup.inherited key
  else Lookup.undefined

/-- The expression `colors[status] || colors.parada` (lines 187, 291, 312). An own colour is a
non-empty string and an inherited property is an object: both are truthy. -/
def statusColor (c : Colors) (status : String) : Paint :=
  match c.get status with
  | Lookup.own v => if v = "" then Paint.css c.parada else Paint.css v
  | Lookup.inherited key => Paint.inheritedObject key
  | Lookup.undefined => Paint.css c.parada

/-! ## Data model -/

/-- The functions of the JavaScript `Math` object that the map calls. -/
structure JsMath (K : Type) where
  sin : K → K
  cos : K → K
  sqrt : K → K

/-- A vehicle record of `this.motos`, with the two fields `drawMotos` attaches to it. -/
structure Moto (K : Type) where
  id : Option Nat
  placa : String
  modelo : String
  status : String
  bateria : Option K
  zona : String
  localizacao_x : Option K
  localizacao_y : Option K
  setor : Option String
  vaga : Option String
  _renderX : Option K
  _renderY : Option K

/-- The mutable fields of a `PatioMap` instance; `width` and `height` are those of the canvas. -/
structure State (K : Type) where
  width : K
  height : K
  motos : List (Moto K)
  selectedMoto : Option (Moto K)

/-! ## drawZones (lines 120-153) -/

/-- One zone as `drawZones` paints it: `strokeRect(x, y, width, height)` and the label `name`
at `(x + 10, y + 25)`. -/
structure ZoneRect (K : Type) where
  name : String
  x : K
  y : K
  width : K
  height : K

/-- The array `zones` of `drawZones`: name, grid column, grid row. -/
def zones : List (String × Nat × Nat) :=
  [("A1", 0, 0), ("A2", 1, 0), ("A3", 2, 0), ("B1", 0, 1), ("B2", 1, 1), ("B3", 2, 1)]

/-- The rectangles `drawZones` strokes and labels on a canvas of the given size. -/
def drawZones {K : Type} [LinearOrderedField K] (width height : K) : List (ZoneRect K) :=
  let padding : K := config.padding
  let zoneWidth := (width - 2 * padding) / 3
  let zoneHeight := (height - 2 * padding) / 2
  zones.map fun zone =>
    ZoneRect.mk zone.1 (padding + (zone.2.1 : K) * zoneWidth)
      (padding + (zone.2.2 : K) * zoneHeight) zoneWidth zoneHeight

/-! ## drawMotos (lines 155-217) -/

/-- The expression `zoneMap[zona]` of `drawMotos`. -/
def zoneMap (zona : String) : Lookup (Nat × Nat) :=
  if zona = "A1" then Lookup.own (0, 0)
  else if zona = "A2" then Lookup.own (1, 0)
  else if zona = "A3" then Lookup.own (2, 0)
  else if zona = "B1" then Lookup.own (0, 1)
  else if zona = "B2" then Lookup.own (1, 1)
  else if zona = "B3" then Lookup.own (2, 1)
  else if zona ∈ objectPrototypeKeys then Lookup.inherited zona
  else Lookup.undefined

/-- The pair `(zonePos[0], zonePos[1])` for `zonePos = zoneMap[zona] || [0, 0]`. An inherited
property is truthy and has no elements `0` and `1`: both are `undefined` and the result is
`none`. -/
def zonePos (zona : String) : Option (Nat × Nat) :=
  match zoneMap zona with
  | Lookup.own p => some p
  | Lookup.inherited _ => none
  | Lookup.undefined => some (0, 0)

/-- The marker centre `(x, y)` that the body of the `forEach` in `drawMotos` computes for
`moto` at position `index` of the list (lines 164-184); `none` when both are `NaN`. -/
def placeMoto {K : Type} [LinearOrderedField K] (M : JsMath K) (width height : K)
    (moto : Moto K) (index : Nat) : Option (K × K) :=
  let padding : K := config.padding
  let mapWidth := width - 2 * padding
  let mapHeight := height - 2 * padding
  match moto.localizacao_x, moto.localizacao_y with
  | some lx, some ly =>
    some (padding + (lx / 100) * mapWidth, padding + (ly / 100) * mapHeight)
  | _, _ =>
    match zonePos moto.zona with
    | none => none
    | some zp =>
      let zoneWidth := mapWidth / 3
      let zoneHeight := mapHeight / 2
      let seed : K := (index : K) * 123.456
      some (padding + (zp.1 : K) * zoneWidth + (M.sin seed * 0.5 + 0.5) * zoneWidth * 0.8
              + zoneWidth * 0.1,
            padding + (zp.2 : K) * zoneHeight + (M.cos seed * 0.5 + 0.5) * zoneHeight * 0.8
              + zoneHeight * 0.1)

/-- An axis-aligned rectangle passed to `fillRect` or `strokeRect`. -/
structure Rect (K : Type) where
  x : K
  y : K
  width : K
  height : K

/-- What `drawBatteryIcon` paints: the fill colour, the filled bar and the outline. -/
structure BatteryIcon (K : Type) where
  fillStyle : String
  fillRect : Rect K
  strokeStyle : String
  strokeRect : Rect K

/-- The method `drawBatteryIcon(x, y, level)` (lines 219-236). -/
def drawBatteryIcon {K : Type} [LinearOrderedField K] (x y level : K) : BatteryIcon K :=
  let width : K := 12
  let height : K := 6
  let color : String :=
    if level > 60 then "#4ade80"
    else if level > 30 then "#f59e0b"
    else "#ef4444"
  BatteryIcon.mk color (Rect.mk (x - width / 2) (y - height / 2) (width * (level / 100)) height)
    "#e2e8f0" (Rect.mk (x - width / 2) (y - height / 2) width height)

/-- What `drawMotos` issues for one vehicle: the circle `arc(x, y, motoRadius, 0, 2π)` with
its fill and outline styles, the battery icon, and the text of the plate label
`fillText(placa, x, y + motoRadius + 12)` when that call is made. With a `NaN` centre
(`center = none`) the canvas ignores the calls that take the coordinates, and the battery
icon, whose rectangles are computed from the centre, is not recorded. -/
structure Marker (K : Type) where
  center : Option (K × K)
  radius : K
  fillStyle : Paint
  strokeStyle : Paint
  lineWidth : K
  battery : Option (BatteryIcon K)
  label : Option String

/-- The expression `this.selectedMoto?.id`: `undefined` when nothing is selected. -/
def selectedId {K : Type} (selectedMoto : Option (Moto K)) : Option Nat :=
  match selectedMoto with
  | none => none
  | some sel => sel.id

/-- The test `this.selectedMoto?.id === moto.id` (lines 196, 197, 206). -/
def isSelected {K : Type} (selectedMoto : Option (Moto K)) (moto : Moto K) : Bool :=
  decide (selectedId selectedMoto = moto.id)

/-- The body of the `forEach` callback of `drawMotos` for `moto` at `index`: the marker it
paints and the record with `_renderX`, `_renderY` stored (lines 162-216). -/
def drawMoto {K : Type} [LinearOrderedField K] (M : JsMath K) (width height : K)
    (selectedMoto : Option (Moto K)) (moto : Moto K) (index : Nat) : Marker K × Moto K :=
  let motoRadius : K := config.motoRadius
  let pos := placeMoto M width height moto index
  let color := statusColor (config : Config K).colors moto.status
  let strokeStyle := if isSelected selectedMoto moto then Paint.css "#fff" else color
  let lineWidth : K := if isSelected selectedMoto moto then 3 else 1
  let battery :=
    match pos, moto.bateria with
    | some p, some level => some (drawBatteryIcon p.1 (p.2 - motoRadius - 8) level)
    | _, _ => none
  let label := if isSelected selectedMoto moto then some moto.placa else none
  (Marker.mk pos motoRadius color strokeStyle lineWidth battery label,
   { moto with _renderX := pos.map Prod.fst, _renderY := pos.map Prod.snd })

/-- The `forEach` loop of `drawMotos`, started at list position `index`. -/
def drawMotosFrom {K : Type} [LinearOrderedField K] (M : JsMath K) (width height : K)
    (selectedMoto : Option (Moto K)) : Nat → List (Moto K) → List (Marker K × Moto K)
  | _, [] => []
  | index, moto :: rest =>
    drawMoto M width height selectedMoto moto index ::
      drawMotosFrom M width height selectedMoto (index + 1) rest

/-- The method `drawMotos`: the markers painted, in order, and the records with their cached
centres. -/
def drawMotos {K : Type} [LinearOrderedField K] (M : JsMath K) (s : State K) :
    List (Marker K × Moto K) :=
  drawMotosFrom M s.width s.height s.selectedMoto 0 s.motos

/-! ## drawLegend (lines 238-274) and drawMotoInfo (lines 276-331) -/

/-- What `drawLegend` paints: one `(label, colour)` row per item and the total. -/
structure Legend where
  items : List (String × String)
  total : Nat

/-- The method `drawLegend`. -/
def drawLegend {K : Type} (s : State K) : Legend :=
  Legend.mk
    [("Disponível", colors.disponivel), ("Em Uso", colors.em_uso),
     ("Manutenção", colors.manutencao), ("Parada", colors.parada)]
    s.motos.length

/-- The text lines of the panel `drawMotoInfo` paints, with the border and status colours.
`setor` and `vaga` are `none` when their line is not drawn. -/
structure InfoPanel (K : Type) where
  border : Paint
  placa : String
  modelo : String
  status : String
  statusColor : Paint
  bateria : Option K
  zona : String
  setor : Option String
  vaga : Option String

/-- The test `if (text)` on an optional string: `undefined` and the empty string are falsy. -/
def truthyString (text : Option String) : Option String :=
  match text with
  | some t => if t = "" then none else some t
  | none => none

/-- The method `drawMotoInfo`, with `moto = this.selectedMoto`. -/
def drawMotoInfo {K : Type} (moto : Moto K) : InfoPanel K :=
  InfoPanel.mk (statusColor colors moto.status) moto.placa moto.modelo moto.status
    (statusColor colors moto.status) moto.bateria moto.zona
    (truthyString moto.setor) (truthyString moto.vaga)

/-! ## render (lines 68-94), loadMotos (lines 52-61) -/

/-- One frame: what `render` paints after the background and the grid. -/
structure Frame (K : Type) where
  zones : List (ZoneRect K)
  markers : List (Marker K)
  legend : Legend
  info : Option (InfoPanel K)

/-- The method `render`: the frame painted and the state with the cached centres stored in
`motos`. `selectedMoto` keeps the record it holds: nothing reads its cached centre. -/
def render {K : Type} [LinearOrderedField K] (M : JsMath K) (s : State K) :
    Frame K × State K :=
  let drawn := drawMotos M s
  (Frame.mk (drawZones s.width s.height) (drawn.map Prod.fst) (drawLegend s)
     (s.selectedMoto.map drawMotoInfo),
   { s with motos := drawn.map Prod.snd })

/-- The method `resizeCanvas` (lines 45-50) for a container `clientWidth` pixels wide. The
canvas attributes are integers: the assignment to `canvas.height` drops the fraction of
`Math.min(600, clientWidth * 0.6)`. -/
def resizeCanvas {K : Type} [LinearOrderedField K] [FloorRing K] (M : JsMath K) (s : State K)
    (clientWidth : Nat) : Frame K × State K :=
  render M { s with
    width := (clientWidth : K)
    height := ((⌊min (600 : K) ((clientWidth : K) * 0.6)⌋₊ : Nat) : K) }

/-- The method `loadMotos` once the request has settled: `Except.error` is the `catch`
branch, `Except.ok data` carries `data.motos` (`none` when falsy). -/
def loadMotos {K : Type} [LinearOrderedField K] (M : JsMath K) (s : State K)
    (response : Except String (Option (List (Moto K)))) : Option (Frame K) × State K :=
  match response with
  | Except.error _ => (none, s)
  | Except.ok data =>
    let r := render M { s with motos := data.getD [] }
    (some r.1, r.2)

/-! ## handleClick (lines 333-359), handleMouseMove (lines 361-382) -/

/-- The body of the loops of `handleClick` and `handleMouseMove` for one vehicle:
`moto._renderX && moto._renderY` and `distance <= motoRadius`. -/
def hit {K : Type} [LinearOrderedField K] (M : JsMath K) (x y : K) (moto : Moto K) : Bool :=
  match moto._renderX, moto._renderY with
  | some renderX, some renderY =>
    if renderX ≠ 0 ∧ renderY ≠ 0 then
      let dx := x - renderX
      let dy := y - renderY
      let distance := M.sqrt (dx * dx + dy * dy)
      decide (distance ≤ config.motoRadius)
    else false
  | _, _ => false

/-- The `for ... of` loop of `handleClick`: the vehicle at which it executes `break`. -/
def firstHit {K : Type} [LinearOrderedField K] (M : JsMath K) (x y : K) :
    List (Moto K) → Option (Moto K)
  | [] => none
  | moto :: rest => if hit M x y moto then some moto else firstHit M x y rest

/-- The method `handleClick` for a pointer at canvas coordinates `(x, y)`. -/
def handleClick {K : Type} [LinearOrderedField K] (M : JsMath K) (s : State K) (x y : K) :
    Frame K × State K :=
  render M { s with selectedMoto := firstHit M x y s.motos }

/-- The method `handleMouseMove`: the value stored in `canvas.style.cursor`. -/
def handleMouseMove {K : Type} [LinearOrderedField K] (M : JsMath K) (s : State K) (x y : K) :
    String :=
  if s.motos.any (hit M x y) then "pointer" else "default"

/-! ## Click resolution as the specification words it -/

/-- Spec: iterate the snapshot in list order; the first vehicle whose Euclidean distance from
its last-rendered marker centre to the pointer is at most the marker radius is the hit, and
no match gives no selection. A vehicle without a cached centre has no distance. -/
def firstWithinRadius {K : Type} [LinearOrderedField K] (M : JsMath K) (x y : K) :
    List (Moto K) → Option (Moto K)
  | [] => none
  | moto :: rest =>
    match moto._renderX, moto._renderY with
    | some renderX, some renderY =>
      if M.sqrt ((x - renderX) * (x - renderX) + (y - renderY) * (y - renderY))
          ≤ config.motoRadius then some moto
      else firstWithinRadius M x y rest
    | _, _ => firstWithinRadius M x y rest

/-! ## Example inputs -/

/-- The vehicle of the example scenario, `id` 1, status `em_uso`, battery 45, zone `B2`,
with explicit coordinates `(lx, ly)`. -/
def motoAt {K : Type} [LinearOrderedField K] (lx ly : K) : Moto K :=
  Moto.mk (some 1) "ABC1D23" "CG 160" "em_uso" (some 45) "B2" (some lx) (some ly)
    none none none none

/-- A vehicle without coordinates in zone `zona`, with the given `id`, plate and battery. -/
def motoInZone {K : Type} [LinearOrderedField K] (id : Option Nat) (placa zona : String)
    (bateria : K) : Moto K :=
  Moto.mk id placa "CG 160" "disponivel" (some bateria) zona none none none none none none

/-- The vehicle of the example scenario with another `status`. -/
def motoWithStatus {K : Type} [LinearOrderedField K] (status : String) : Moto K :=
  Moto.mk (some 1) "ABC1D23" "CG 160" status (some 45) "B2" (some 25) (some 50)
    none none none none

/-- The vehicle `motoAt lx ly` after a render that cached the centre `(renderX, renderY)`. -/
def motoCached {K : Type} [LinearOrderedField K] (lx ly renderX renderY : K) : Moto K :=
  Moto.mk (some 1) "ABC1D23" "CG 160" "em_uso" (some 45) "B2" (some lx) (some ly)
    none none (some renderX) (some renderY)

/-- The record a later snapshot carries for the vehicle with `id` 1 of the example scenario:
moved to `(75, 10)`, now in maintenance in zone A3 with battery 20. -/
def motoRefreshed {K : Type} [LinearOrderedField K] : Moto K :=
  Moto.mk (some 1) "ABC1D23" "CG 160" "manutencao" (some 20) "A3" (some 75) (some 10)
    none none none none

/-- A rational stand-in for `Math`, for inputs on which its functions are not called or
any value in range will do. -/
def constMath : JsMath ℚ := JsMath.mk (fun _ => 0) (fun _ => 1) (fun t => t)

/-! ## Explicit placement -/

/-- C1: on a canvas at least `2 * padding` wide and high (`padding = 40`), a vehicle whose
`localizacao_x` and `localizacao_y` are both present with values in `[0, 100]` gets the marker
centre `x = padding + (localizacao_x / 100) * (width - 2 * padding)`,
`y = padding + (localizacao_y / 100) * (height - 2 * padding)`; `drawMotos` paints the marker
there and caches it in `_renderX`, `_renderY`, and the centre lies in
`[padding, width - padding] × [padding, height - padding]`. -/
theorem drawMoto_explicit_in_interior {K : Type} [LinearOrderedField K] (M : JsMath K)
    (width height : K) (selectedMoto : Option (Moto K)) (moto : Moto K) (index : Nat)
    (lx ly : K)
    (hw : 2 * (config : Config K).padding ≤ width)
    (hh : 2 * (config : Config K).padding ≤ height)
    (hx : moto.localizacao_x = some lx) (hy : moto.localizacao_y = some ly)
    (hlx : 0 ≤ lx ∧ lx ≤ 100) (hly : 0 ≤ ly ∧ ly ≤ 100) :
    (config : Config K).padding = 40 ∧
    ∃ x y : K,
      x = (config : Config K).padding + (lx / 100) * (width - 2 * (config : Config K).padding) ∧
      y = (config : Config K).padding + (ly / 100) * (height - 2 * (config : Config K).padding) ∧
      (drawMoto M width height selectedMoto moto index).1.center = some (x, y) ∧
      (drawMoto M width height selectedMoto moto index).2._renderX = some x ∧
      (drawMoto M width height selectedMoto moto index).2._renderY = some y ∧
      (config : Config K).padding ≤ x ∧ x ≤ width - (config : Config K).padding ∧
      (config : Config K).padding ≤ y ∧ y ≤ height - (config : Config K).padding := by
  obtain ⟨hlx0, hlx1⟩ := hlx
  obtain ⟨hly0, hly1⟩ := hly
  have hpad : (config : Config K).padding = 40 := rfl
  rw [hpad] at hw hh
  refine ⟨hpad, _, _, rfl, rfl, ?_, ?_, ?_, ?_, ?_, ?_, ?_⟩
  · simp [drawMoto, placeMoto, hx, hy]
  · simp [drawMoto, placeMoto, hx, hy]
  · simp [drawMoto, placeMoto, hx, hy]
  · rw [hpad]
    have : 0 ≤ lx / 100 * (width - 2 * 40) :=
      mul_nonneg (div_nonneg hlx0 (by norm_num)) (by linarith)
    linarith
  · rw [hpad]
    have h1 : lx / 100 ≤ 1 := by rw [div_le_one (by norm_num)]; exact hlx1
    have : lx / 100 * (width - 2 * 40) ≤ 1 * (width - 2 * 40) :=
      mul_le_mul_of_nonneg_right h1 (by linarith)
    linarith
  · rw [hpad]
    have : 0 ≤ ly / 100 * (height - 2 * 40) :=
      mul_nonneg (div_nonneg hly0 (by norm_num)) (by linarith)
    linarith
  · rw [hpad]
    have h1 : ly / 100 ≤ 1 := by rw [div_le_one (by norm_num)]; exact hly1
    have : ly / 100 * (height - 2 * 40) ≤ 1 * (height - 2 * 40) :=
      mul_le_mul_of_nonneg_right h1 (by linarith)
    linarith

/-- C1 at a concrete input: canvas 800 by 480, vehicle at `(25, 50)`. -/
theorem drawMoto_explicit_in_interior_witness :
    (2 * (config : Config ℚ).padding ≤ 800 ∧ 2 * (config : Config ℚ).padding ≤ 480) ∧
    ((config : Config ℚ).padding = 40 ∧
    ∃ x y : ℚ,
      x = (config : Config ℚ).padding + (25 / 100) * (800 - 2 * (config : Config ℚ).padding) ∧
      y = (config : Config ℚ).padding + (50 / 100) * (480 - 2 * (config : Config ℚ).padding) ∧
      (drawMoto constMath 800 480 none (motoAt 25 50) 0).1.center = some (x, y) ∧
      (drawMoto constMath 800 480 none (motoAt 25 50) 0).2._renderX = some x ∧
      (drawMoto constMath 800 480 none (motoAt 25 50) 0).2._renderY = some y ∧
      (config : Config ℚ).padding ≤ x ∧ x ≤ 800 - (config : Config ℚ).padding ∧
      (config : Config ℚ).padding ≤ y ∧ y ≤ 480 - (config : Config ℚ).padding) :=
  ⟨by simp only [config]; norm_num,
   drawMoto_explicit_in_interior constMath 800 480 none (motoAt 25 50) 0 25 50
     (by simp only [config]; norm_num) (by simp only [config]; norm_num) rfl rfl
     (by norm_num) (by norm_num)⟩

/-! ## Battery icon -/

/-- C7: the filled width of the battery bar is `12 * level / 100`; it is `0` at level `0`,
the full bar width `12` (the width of the outline) at level `100`, and non-decreasing in the
level. -/
theorem drawBatteryIcon_fill_width {K : Type} [LinearOrderedField K] (x y : K) :
    (∀ level : K, (drawBatteryIcon x y level).fillRect.width = 12 * level / 100) ∧
    (drawBatteryIcon x y 0).fillRect.width = 0 ∧
    (drawBatteryIcon x y 100).fillRect.width = 12 ∧
    (drawBatteryIcon x y 100).fillRect.width = (drawBatteryIcon x y 100).strokeRect.width ∧
    (∀ a b : K, a ≤ b →
      (drawBatteryIcon x y a).fillRect.width ≤ (drawBatteryIcon x y b).fillRect.width) := by
  refine ⟨?_, ?_, ?_, ?_, ?_⟩
  · intro level
    simp only [drawBatteryIcon]
    ring
  · simp [drawBatteryIcon]
  · simp [drawBatteryIcon]
  · simp [drawBatteryIcon]
  · intro a b hab
    simp only [drawBatteryIcon]
    have : a / 100 ≤ b / 100 := div_le_div_of_nonneg_right hab (by norm_num)
    exact mul_le_mul_of_nonneg_left this (by norm_num)

/-- C7 at concrete levels: the bar at level 20 is no wider than at level 70. -/
theorem drawBatteryIcon_fill_width_witness :
    (20 : ℚ) ≤ 70 ∧
    (drawBatteryIcon (0 : ℚ) 0 20).fillRect.width ≤ (drawBatteryIcon (0 : ℚ) 0 70).fillRect.width :=
  ⟨by norm_num, (drawBatteryIcon_fill_width (0 : ℚ) 0).2.2.2.2 20 70 (by norm_num)⟩

/-- C8: for every battery level, in particular every level in `[0, 100]`, the fill colour is `#4ade80` (good) iff
`level > 60`, `#f59e0b` (warning) iff `30 < level ≤ 60`, `#ef4444` (critical) iff
`level ≤ 30`, and it is one of the three; level 45 is drawn in the warning colour with a
fill of 45% of the bar width. -/
theorem drawBatteryIcon_color_tiers {K : Type} [LinearOrderedField K] (x y level : K) :
    ((drawBatteryIcon x y level).fillStyle = "#4ade80" ↔ 60 < level) ∧
    ((drawBatteryIcon x y level).fillStyle = "#f59e0b" ↔ 30 < level ∧ level ≤ 60) ∧
    ((drawBatteryIcon x y level).fillStyle = "#ef4444" ↔ level ≤ 30) ∧
    ((drawBatteryIcon x y level).fillStyle = "#4ade80" ∨
     (drawBatteryIcon x y level).fillStyle = "#f59e0b" ∨
     (drawBatteryIcon x y level).fillStyle = "#ef4444") ∧
    (drawBatteryIcon x y 45).fillStyle = "#f59e0b" ∧
    (drawBatteryIcon x y 45).fillRect.width =
      45 / 100 * (drawBatteryIcon x y 45).strokeRect.width := by
  have hgw : ("#4ade80" : String) ≠ "#f59e0b" := by decide
  have hgc : ("#4ade80" : String) ≠ "#ef4444" := by decide
  have hwc : ("#f59e0b" : String) ≠ "#ef4444" := by decide
  have h45a : ¬ ((60 : K) < 45) := by norm_num
  have h45b : (30 : K) < 45 := by norm_num
  refine ⟨?_, ?_, ?_, ?_, ?_, ?_⟩
  · simp only [drawBatteryIcon, gt_iff_lt]
    split_ifs with h1 h2
    · simp [h1]
    · simp [h1, hgw.symm]
    · simp [h1, hgc.symm]
  · simp only [drawBatteryIcon, gt_iff_lt]
    split_ifs with h1 h2
    · simp [hgw, not_le.mpr h1]
    · simp [h2, not_lt.mp h1]
    · simp [hwc.symm, h2]
  · simp only [drawBatteryIcon, gt_iff_lt]
    split_ifs with h1 h2
    · have : ¬ level ≤ 30 := by
        intro h
        have : (60 : K) < 30 := lt_of_lt_of_le h1 h
        norm_num at this
      simp [hgc, this]
    · simp [hwc, not_le.mpr h2]
    · simp [not_lt.mp h2]
  · simp only [drawBatteryIcon, gt_iff_lt]
    split_ifs <;> simp
  · simp [drawBatteryIcon, h45a, h45b]
  · simp only [drawBatteryIcon]
    norm_num

/-- C8 at the level of the example scenario, 45. -/
theorem drawBatteryIcon_color_tiers_witness :
    ((30 : ℚ) < 45 ∧ (45 : ℚ) ≤ 60) ∧ (drawBatteryIcon (0 : ℚ) 0 45).fillStyle = "#f59e0b" :=
  ⟨by norm_num, (drawBatteryIcon_color_tiers (0 : ℚ) 0 45).2.1.mpr (by norm_num)⟩

/-! ## Fallback placement -/

/-- The offset `(t * 0.5 + 0.5) * size * 0.8 + size * 0.1` lies between 10% and 90% of
`size` when `t` is in `[-1, 1]` and `size` is not negative. -/
theorem inner_offset_bounds {K : Type} [LinearOrderedField K] (t size : K)
    (ht : -1 ≤ t ∧ t ≤ 1) (hs : 0 ≤ size) :
    0.1 * size ≤ (t * 0.5 + 0.5) * size * 0.8 + size * 0.1 ∧
    (t * 0.5 + 0.5) * size * 0.8 + size * 0.1 ≤ 0.9 * size := by
  obtain ⟨h1, h2⟩ := ht
  have ha : 0 ≤ (1 + t) * size := mul_nonneg (by linarith) hs
  have hb : 0 ≤ (1 - t) * size := mul_nonneg (by linarith) hs
  constructor
  · norm_num
    nlinarith
  · norm_num
    nlinarith

/-- The fallback branch of `drawMotos`: a vehicle lacking a coordinate, whose zone code
resolves to the grid cell `(col, row)`, is placed in the inner 80% of that cell, whenever
`Math.sin` and `Math.cos` take values in `[-1, 1]`. -/
theorem placeMoto_fallback_bounds {K : Type} [LinearOrderedField K] (M : JsMath K)
    (hsin : ∀ t, -1 ≤ M.sin t ∧ M.sin t ≤ 1) (hcos : ∀ t, -1 ≤ M.cos t ∧ M.cos t ≤ 1)
    (width height : K) (moto : Moto K) (index col row : Nat)
    (hw : 2 * 40 ≤ width) (hh : 2 * 40 ≤ height)
    (hno : moto.localizacao_x = none ∨ moto.localizacao_y = none)
    (hz : zonePos moto.zona = some (col, row)) :
    ∃ x y : K, placeMoto M width height moto index = some (x, y) ∧
      x = 40 + (col : K) * ((width - 2 * 40) / 3)
            + (M.sin ((index : K) * 123.456) * 0.5 + 0.5) * ((width - 2 * 40) / 3) * 0.8
            + (width - 2 * 40) / 3 * 0.1 ∧
      y = 40 + (row : K) * ((height - 2 * 40) / 2)
            + (M.cos ((index : K) * 123.456) * 0.5 + 0.5) * ((height - 2 * 40) / 2) * 0.8
            + (height - 2 * 40) / 2 * 0.1 ∧
      40 + (col : K) * ((width - 2 * 40) / 3) + 0.1 * ((width - 2 * 40) / 3) ≤ x ∧
      x ≤ 40 + (col : K) * ((width - 2 * 40) / 3) + 0.9 * ((width - 2 * 40) / 3) ∧
      40 + (row : K) * ((height - 2 * 40) / 2) + 0.1 * ((height - 2 * 40) / 2) ≤ y ∧
      y ≤ 40 + (row : K) * ((height - 2 * 40) / 2) + 0.9 * ((height - 2 * 40) / 2) := by
  have hzw : (0 : K) ≤ (width - 2 * 40) / 3 := div_nonneg (by linarith) (by norm_num)
  have hzh : (0 : K) ≤ (height - 2 * 40) / 2 := div_nonneg (by linarith) (by norm_num)
  have bx := inner_offset_bounds (M.sin ((index : K) * 123.456)) _ (hsin _) hzw
  have by_ := inner_offset_bounds (M.cos ((index : K) * 123.456)) _ (hcos _) hzh
  refine ⟨_, _, ?_, rfl, rfl, ?_, ?_, ?_, ?_⟩
  · rcases hno with h | h
    · simp [placeMoto, h, hz, config]
    · cases hx : moto.localizacao_x <;> simp [placeMoto, h, hx, hz, config]
  · linarith [bx.1]
  · linarith [bx.2]
  · linarith [by_.1]
  · linarith [by_.2]

/-- The grid cell `zoneMap` gives to each of the six zone codes. -/
theorem zonePos_of_known (zona : String)
    (hzona : zona ∈ ["A1", "A2", "A3", "B1", "B2", "B3"]) :
    ∃ col row : Nat, zonePos zona = some (col, row) ∧ (zona, col, row) ∈ zones := by
  simp only [List.mem_cons, List.mem_singleton, List.not_mem_nil, or_false] at hzona
  rcases hzona with h | h | h | h | h | h <;> subst h <;> simp [zonePos, zoneMap, zones]

/-- The rectangle `drawZones` paints for an entry of its zone table. -/
theorem drawZones_of_entry {K : Type} [LinearOrderedField K] (width height : K)
    (z : ZoneRect K) (hz : z ∈ drawZones width height) :
    ∃ col row : Nat, (z.name, col, row) ∈ zones ∧
      z.x = 40 + (col : K) * ((width - 2 * 40) / 3) ∧
      z.y = 40 + (row : K) * ((height - 2 * 40) / 2) ∧
      z.width = (width - 2 * 40) / 3 ∧ z.height = (height - 2 * 40) / 2 := by
  simp only [drawZones, List.mem_map] at hz
  obtain ⟨e, he, rfl⟩ := hz
  exact ⟨e.2.1, e.2.2, he, rfl, rfl, rfl, rfl⟩

/-- A zone code occurs once in the zone table of `drawZones`. -/
theorem zones_cell_unique (name : String) (c r c2 r2 : Nat)
    (h : (name, c, r) ∈ zones) (h2 : (name, c2, r2) ∈ zones) : c = c2 ∧ r = r2 := by
  simp only [zones, List.mem_cons, List.mem_singleton, List.not_mem_nil, or_false,
    Prod.mk.injEq] at h h2
  rcases h with h | h | h | h | h | h <;> rcases h2 with h2 | h2 | h2 | h2 | h2 | h2 <;>
    obtain ⟨hn, hc, hr⟩ := h <;> obtain ⟨hn2, hc2, hr2⟩ := h2 <;> subst hn hc hr hc2 hr2 <;>
    first
      | exact ⟨rfl, rfl⟩
      | exact absurd hn2 (by decide)

/-- C10: on a canvas more than `2 * padding` wide and high, a vehicle without an explicit
position whose zone code is one of A1, A2, A3, B1, B2, B3 is placed by `drawMotos` inside the
rectangle that `drawZones` strokes and labels with that code: `drawZones` paints a rectangle
with that name, and the marker centre (with `Math.sin`, `Math.cos` the real sine and cosine)
lies in every rectangle it paints with that name. -/
theorem drawMoto_fallback_inside_drawn_zone (width height : ℝ)
    (selectedMoto : Option (Moto ℝ)) (moto : Moto ℝ) (index : Nat)
    (hw : 2 * (config : Config ℝ).padding < width)
    (hh : 2 * (config : Config ℝ).padding < height)
    (hzona : moto.zona ∈ ["A1", "A2", "A3", "B1", "B2", "B3"])
    (hno : moto.localizacao_x = none ∨ moto.localizacao_y = none) :
    (∃ z ∈ drawZones width height, z.name = moto.zona) ∧
    ∀ z ∈ drawZones width height, z.name = moto.zona →
      ∃ x y : ℝ,
        (drawMoto (JsMath.mk Real.sin Real.cos Real.sqrt) width height selectedMoto
          moto index).1.center = some (x, y) ∧
        z.x ≤ x ∧ x ≤ z.x + z.width ∧ z.y ≤ y ∧ y ≤ z.y + z.height := by
  have hpad : (config : Config ℝ).padding = 40 := rfl
  rw [hpad] at hw hh
  obtain ⟨col, row, hpos, hmem⟩ := zonePos_of_known moto.zona hzona
  constructor
  · unfold drawZones
    exact ⟨_, List.mem_map.mpr ⟨_, hmem, rfl⟩, rfl⟩
  · intro z hz hname
    obtain ⟨c, r, hc, hzx, hzy, hzw, hzh⟩ := drawZones_of_entry width height z hz
    rw [hname] at hc
    obtain ⟨hcc, hrr⟩ := zones_cell_unique _ _ _ _ _ hc hmem
    subst hcc hrr
    obtain ⟨x, y, hplace, -, -, hx1, hx2, hy1, hy2⟩ :=
      placeMoto_fallback_bounds (JsMath.mk Real.sin Real.cos Real.sqrt)
        (fun t => ⟨Real.neg_one_le_sin t, Real.sin_le_one t⟩)
        (fun t => ⟨Real.neg_one_le_cos t, Real.cos_le_one t⟩)
        width height moto index c r hw.le hh.le hno hpos
    have hzw0 : (0 : ℝ) ≤ (width - 2 * 40) / 3 := div_nonneg (by linarith) (by norm_num)
    have hzh0 : (0 : ℝ) ≤ (height - 2 * 40) / 2 := div_nonneg (by linarith) (by norm_num)
    refine ⟨x, y, ?_, ?_, ?_, ?_, ?_⟩
    · simpa [drawMoto] using hplace
    · rw [hzx]; norm_num at hx1 ⊢; linarith
    · rw [hzx, hzw]; norm_num at hx2 ⊢; linarith
    · rw [hzy]; norm_num at hy1 ⊢; linarith
    · rw [hzy, hzh]; norm_num at hy2 ⊢; linarith

/-- C10 at a concrete input: canvas 800 by 480, a vehicle without coordinates in zone B2 at
list position 0. -/
theorem drawMoto_fallback_inside_drawn_zone_witness :
    (2 * (config : Config ℝ).padding < 800 ∧ 2 * (config : Config ℝ).padding < 480) ∧
    ((∃ z ∈ drawZones (800 : ℝ) 480, z.name = (motoInZone (some 1) "ABC1D23" "B2" (45 : ℝ)).zona) ∧
    ∀ z ∈ drawZones (800 : ℝ) 480, z.name = (motoInZone (some 1) "ABC1D23" "B2" (45 : ℝ)).zona →
      ∃ x y : ℝ,
        (drawMoto (JsMath.mk Real.sin Real.cos Real.sqrt) 800 480 none
          (motoInZone (some 1) "ABC1D23" "B2" 45) 0).1.center = some (x, y) ∧
        z.x ≤ x ∧ x ≤ z.x + z.width ∧ z.y ≤ y ∧ y ≤ z.y + z.height) :=
  ⟨by simp only [config]; norm_num,
   drawMoto_fallback_inside_drawn_zone 800 480 none (motoInZone (some 1) "ABC1D23" "B2" 45) 0
     (by simp only [config]; norm_num) (by simp only [config]; norm_num)
     (by simp [motoInZone]) (Or.inl rfl)⟩

/-- The fallback placement for every zone code that is not the name of a property inherited
from `Object.prototype`: on a canvas at least `2 * padding` wide and high, with `(col, row)`
the cell of the code (own entry of `zoneMap`, else `(0, 0)`), the marker centre lies in the
inner 80% of the cell, with `Math.sin`, `Math.cos` the real sine and cosine. -/
theorem drawMoto_fallback_in_zone_inner (width height : ℝ)
    (selectedMoto : Option (Moto ℝ)) (moto : Moto ℝ) (index : Nat)
    (hw : 2 * (config : Config ℝ).padding ≤ width)
    (hh : 2 * (config : Config ℝ).padding ≤ height)
    (hno : moto.localizacao_x = none ∨ moto.localizacao_y = none)
    (hzona : moto.zona ∉ objectPrototypeKeys) :
    ∃ col row : Nat, ∃ x y : ℝ,
      zonePos moto.zona = some (col, row) ∧
      (moto.zona ∈ ["A1", "A2", "A3"] → row = 0) ∧
      (moto.zona ∈ ["B1", "B2", "B3"] → row = 1) ∧
      (moto.zona ∉ ["A1", "A2", "A3", "B1", "B2", "B3"] → col = 0 ∧ row = 0) ∧
      (drawMoto (JsMath.mk Real.sin Real.cos Real.sqrt) width height selectedMoto
        moto index).1.center = some (x, y) ∧
      40 + (col : ℝ) * ((width - 2 * 40) / 3) + 0.1 * ((width - 2 * 40) / 3) ≤ x ∧
      x ≤ 40 + (col : ℝ) * ((width - 2 * 40) / 3) + 0.9 * ((width - 2 * 40) / 3) ∧
      40 + (row : ℝ) * ((height - 2 * 40) / 2) + 0.1 * ((height - 2 * 40) / 2) ≤ y ∧
      y ≤ 40 + (row : ℝ) * ((height - 2 * 40) / 2) + 0.9 * ((height - 2 * 40) / 2) := by
  have hpad : (config : Config ℝ).padding = 40 := rfl
  rw [hpad] at hw hh
  have hcell : ∃ col row : Nat, zonePos moto.zona = some (col, row) ∧
      (moto.zona ∈ ["A1", "A2", "A3"] → row = 0) ∧
      (moto.zona ∈ ["B1", "B2", "B3"] → row = 1) ∧
      (moto.zona ∉ ["A1", "A2", "A3", "B1", "B2", "B3"] → col = 0 ∧ row = 0) := by
    simp only [zonePos, zoneMap]
    split_ifs with h1 h2 h3 h4 h5 h6
    · exact ⟨0, 0, rfl, by simp [h1], by simp [h1], by simp [h1]⟩
    · exact ⟨1, 0, rfl, by simp [h2], by simp [h2], by simp [h2]⟩
    · exact ⟨2, 0, rfl, by simp [h3], by simp [h3], by simp [h3]⟩
    · exact ⟨0, 1, rfl, by simp [h4], by simp [h4], by simp [h4]⟩
    · exact ⟨1, 1, rfl, by simp [h5], by simp [h5], by simp [h5]⟩
    · exact ⟨2, 1, rfl, by simp [h6], by simp [h6], by simp [h6]⟩
    · exact ⟨0, 0, rfl, by simp [h1, h2, h3], by simp [h4, h5, h6], by simp⟩
  obtain ⟨col, row, hpos, hA, hB, hU⟩ := hcell
  obtain ⟨x, y, hplace, -, -, hx1, hx2, hy1, hy2⟩ :=
    placeMoto_fallback_bounds (JsMath.mk Real.sin Real.cos Real.sqrt)
      (fun t => ⟨Real.neg_one_le_sin t, Real.sin_le_one t⟩)
      (fun t => ⟨Real.neg_one_le_cos t, Real.cos_le_one t⟩)
      width height moto index col row hw hh hno hpos
  exact ⟨col, row, x, y, hpos, hA, hB, hU, by simpa [drawMoto] using hplace, hx1, hx2, hy1, hy2⟩

/-- The example scenario: on a canvas 800 by 480 a vehicle without coordinates in zone B2 is
placed with `x` in `[304, 496]` and `y` in `[260, 420]`, at every list position. -/
theorem drawMoto_fallback_example (index : Nat) :
    ∃ x y : ℝ,
      (drawMoto (JsMath.mk Real.sin Real.cos Real.sqrt) 800 480 none
        (motoInZone (some 1) "ABC1D23" "B2" 45) index).1.center = some (x, y) ∧
      304 ≤ x ∧ x ≤ 496 ∧ 260 ≤ y ∧ y ≤ 420 := by
  obtain ⟨x, y, hplace, -, -, hx1, hx2, hy1, hy2⟩ :=
    placeMoto_fallback_bounds (JsMath.mk Real.sin Real.cos Real.sqrt)
      (fun t => ⟨Real.neg_one_le_sin t, Real.sin_le_one t⟩)
      (fun t => ⟨Real.neg_one_le_cos t, Real.cos_le_one t⟩)
      800 480 (motoInZone (some 1) "ABC1D23" "B2" 45) index 1 1 (by norm_num) (by norm_num)
      (Or.inl rfl) (by simp [motoInZone, zonePos, zoneMap])
  refine ⟨x, y, by simpa [drawMoto] using hplace, ?_, ?_, ?_, ?_⟩
  · norm_num at hx1; linarith
  · norm_num at hx2; linarith
  · norm_num at hy1; linarith
  · norm_num at hy2; linarith

/-- C2, the code at a zone code that names a property inherited from `Object.prototype`:
for the zone code `constructor`, which is not one of the six codes, `zoneMap[zona]` is a
truthy object, the `[0, 0]` default is not taken and both coordinates are `NaN`: no marker
centre is computed or cached, so the marker is not in the inner rectangle of cell `(0, 0)`. -/
theorem drawMoto_inherited_zone_no_centre :
    "constructor" ∉ ["A1", "A2", "A3", "B1", "B2", "B3"] ∧
    (drawMoto (JsMath.mk Real.sin Real.cos Real.sqrt) 800 480 none
      (motoInZone (some 1) "ABC1D23" "constructor" 45) 0).1.center = none ∧
    (drawMoto (JsMath.mk Real.sin Real.cos Real.sqrt) 800 480 none
      (motoInZone (some 1) "ABC1D23" "constructor" 45) 0).2._renderX = none ∧
    ¬ ∃ x y : ℝ,
      (drawMoto (JsMath.mk Real.sin Real.cos Real.sqrt) 800 480 none
        (motoInZone (some 1) "ABC1D23" "constructor" 45) 0).1.center = some (x, y) ∧
      40 + 0.1 * 240 ≤ x ∧ x ≤ 40 + 0.9 * 240 ∧ 40 + 0.1 * 200 ≤ y ∧ y ≤ 40 + 0.9 * 200 := by
  have hc : (drawMoto (JsMath.mk Real.sin Real.cos Real.sqrt) 800 480 none
      (motoInZone (some 1) "ABC1D23" "constructor" 45) 0).1.center = none := by
    simp [drawMoto, placeMoto, motoInZone, zonePos, zoneMap, objectPrototypeKeys]
  refine ⟨by decide, hc, ?_, ?_⟩
  · simp [drawMoto, placeMoto, motoInZone, zonePos, zoneMap, objectPrototypeKeys]
  · rintro ⟨x, y, h, -⟩
    rw [hc] at h
    exact Option.noConfusion h

/-! ## Status colour -/

/-- The colour `colors[status] || colors.parada` for each status of the legend, and for every
string that is neither a key of `colors` nor the name of a property inherited from
`Object.prototype`: the four status colours, and the `parada` colour `#94a3b8`. -/
theorem statusColor_of_status (status : String) :
    (status = "disponivel" → statusColor colors status = Paint.css "#4ade80") ∧
    (status = "em_uso" → statusColor colors status = Paint.css "#f59e0b") ∧
    (status = "manutencao" → statusColor colors status = Paint.css "#ef4444") ∧
    (status = "parada" → statusColor colors status = Paint.css "#94a3b8") ∧
    (status ∉ ["disponivel", "em_uso", "manutencao", "parada",
        "background", "grid", "text", "zone"] →
      status ∉ objectPrototypeKeys → statusColor colors status = Paint.css "#94a3b8") := by
  refine ⟨?_, ?_, ?_, ?_, ?_⟩
  · rintro rfl; decide
  · rintro rfl; decide
  · rintro rfl; decide
  · rintro rfl; decide
  · intro h hp
    simp only [List.mem_cons, List.mem_singleton, List.not_mem_nil, or_false, not_or] at h
    obtain ⟨h1, h2, h3, h4, h5, h6, h7, h8⟩ := h
    simp [statusColor, Colors.get, h1, h2, h3, h4, h5, h6, h7, h8, hp, colors]

/-- C6, the code at a status that is not one of the four: for the status string
`background`, a key of the same `colors` table that is not a status, the marker fill and the
status colour of the detail panel are the canvas background colour `#1e293b`, not the
`parada` colour `#94a3b8`. -/
theorem statusColor_background_not_parada :
    "background" ∉ ["disponivel", "em_uso", "manutencao", "parada"] ∧
    (drawMoto constMath 800 480 none (motoWithStatus "background") 0).1.fillStyle
      = Paint.css "#1e293b" ∧
    (drawMotoInfo (motoWithStatus "background" : Moto ℚ)).statusColor = Paint.css "#1e293b" ∧
    colors.parada = "#94a3b8" ∧
    (drawMoto constMath 800 480 none (motoWithStatus "background") 0).1.fillStyle
      ≠ Paint.css colors.parada := by
  refine ⟨by decide, ?_, ?_, rfl, ?_⟩
  · simp [drawMoto, motoWithStatus, statusColor, Colors.get, config, colors]
  · simp [drawMotoInfo, motoWithStatus, statusColor, Colors.get, colors]
  · simp [drawMoto, motoWithStatus, statusColor, Colors.get, config, colors]

/-! ## Selection highlight -/

/-- The test `this.selectedMoto?.id === moto.id` holds exactly when a vehicle is selected
and carries the same `id` value (present or not) as `moto`, or nothing is selected and `moto`
has no `id`. -/
theorem isSelected_iff {K : Type} (selectedMoto : Option (Moto K)) (moto : Moto K) :
    isSelected selectedMoto moto = true ↔
      (∃ sel, selectedMoto = some sel ∧ sel.id = moto.id) ∨
      (selectedMoto = none ∧ moto.id = none) := by
  cases selectedMoto with
  | none =>
    have key : isSelected (none : Option (Moto K)) moto = true ↔ none = moto.id := by
      simp [isSelected, selectedId]
    rw [key]
    constructor
    · intro h; exact Or.inr ⟨rfl, h.symm⟩
    · rintro (⟨sel, h, -⟩ | ⟨-, h⟩)
      · exact Option.noConfusion h
      · exact h.symm
  | some s =>
    have key : isSelected (some s) moto = true ↔ s.id = moto.id := by
      simp [isSelected, selectedId]
    rw [key]
    constructor
    · intro h; exact Or.inl ⟨s, rfl, h⟩
    · rintro (⟨sel, h, h2⟩ | ⟨h, -⟩)
      · cases h; exact h2
      · exact Option.noConfusion h

/-- The outline and the plate label `drawMotos` paints for a vehicle, by the outcome of the
test `this.selectedMoto?.id === moto.id`: `#fff`, width 3 and the plate when it holds, the
fill colour, width 1 and no plate when it does not. -/
theorem drawMoto_highlight {K : Type} [LinearOrderedField K] (M : JsMath K) (width height : K)
    (selectedMoto : Option (Moto K)) (moto : Moto K) (index : Nat) :
    (isSelected selectedMoto moto = true →
      (drawMoto M width height selectedMoto moto index).1.strokeStyle = Paint.css "#fff" ∧
      (drawMoto M width height selectedMoto moto index).1.lineWidth = 3 ∧
      (drawMoto M width height selectedMoto moto index).1.label = some moto.placa) ∧
    (isSelected selectedMoto moto = false →
      (drawMoto M width height selectedMoto moto index).1.strokeStyle
        = (drawMoto M width height selectedMoto moto index).1.fillStyle ∧
      (drawMoto M width height selectedMoto moto index).1.lineWidth = 1 ∧
      (drawMoto M width height selectedMoto moto index).1.label = none) := by
  constructor
  · intro h
    simp [drawMoto, h]
  · intro h
    simp [drawMoto, h]

/-- C9, the code on a record without `id` when nothing is selected: `this.selectedMoto?.id`
and `moto.id` are both `undefined`, the test `===` holds, and the marker is painted with the
outline `#fff` of width 3 and its plate label although no vehicle is selected and no detail
panel is drawn. -/
theorem render_highlights_record_without_id (M : JsMath ℚ) :
    (State.mk 800 480 [motoInZone none "ABC1D23" "A1" (80 : ℚ)] none).selectedMoto = none ∧
    ((render M (State.mk 800 480 [motoInZone none "ABC1D23" "A1" 80] none)).1.markers.map
      fun marker => (marker.strokeStyle, marker.lineWidth, marker.label))
      = [(Paint.css "#fff", 3, some "ABC1D23")] ∧
    (render M (State.mk 800 480 [motoInZone none "ABC1D23" "A1" 80] none)).1.info.isNone
      = true := by
  refine ⟨rfl, ?_, ?_⟩
  · simp [render, drawMotos, drawMotosFrom, drawMoto, isSelected, selectedId, motoInZone]
  · simp [render]

/-! ## The loop of drawMotos -/

/-- The `forEach` loop of `drawMotos` handles the vehicle at offset `i` with the list index
`start + i`. -/
theorem drawMotosFrom_getElem? {K : Type} [LinearOrderedField K] (M : JsMath K)
    (width height : K) (selectedMoto : Option (Moto K)) (motos : List (Moto K))
    (start i : Nat) :
    (drawMotosFrom M width height selectedMoto start motos)[i]? =
      (motos[i]?).map fun moto => drawMoto M width height selectedMoto moto (start + i) := by
  induction motos generalizing start i with
  | nil => simp [drawMotosFrom]
  | cons moto rest ih =>
    cases i with
    | zero => simp [drawMotosFrom]
    | succ j =>
      simp only [drawMotosFrom, List.getElem?_cons_succ]
      rw [ih (start + 1) j]
      have : start + 1 + j = start + (j + 1) := by omega
      rw [this]

/-! ## Click resolution -/

/-- When no cached coordinate is zero, the loop of `handleClick` returns the first vehicle
in list order within `motoRadius` of the pointer. -/
theorem firstHit_eq_firstWithinRadius {K : Type} [LinearOrderedField K] (M : JsMath K)
    (x y : K) (motos : List (Moto K))
    (hnz : ∀ moto ∈ motos, moto._renderX ≠ some 0 ∧ moto._renderY ≠ some 0) :
    firstHit M x y motos = firstWithinRadius M x y motos := by
  induction motos with
  | nil => rfl
  | cons moto rest ih =>
    have hrest := ih fun m hm => hnz m (List.mem_cons_of_mem _ hm)
    obtain ⟨hx, hy⟩ := hnz moto (List.mem_cons_self _ _)
    simp only [firstHit, firstWithinRadius, hit]
    cases hrx : moto._renderX with
    | none => simpa using hrest
    | some renderX =>
      cases hry : moto._renderY with
      | none => simpa using hrest
      | some renderY =>
        have h1 : renderX ≠ 0 := fun h => hx (by rw [hrx, h])
        have h2 : renderY ≠ 0 := fun h => hy (by rw [hry, h])
        simp only [h1, h2, ne_eq, not_false_eq_true, and_self, if_true, decide_eq_true_eq]
        rw [hrest]

/-- After `handleClick` the selection is the vehicle at which its loop stopped, if any. -/
theorem handleClick_selectedMoto {K : Type} [LinearOrderedField K] (M : JsMath K)
    (s : State K) (x y : K) :
    (handleClick M s x y).2.selectedMoto = firstHit M x y s.motos := rfl

/-- C3, the code on a marker whose cached centre has a zero coordinate: on a canvas 40 by 24
the vehicle at `(100, 50)` has the cached centre `(0, 12)`. A click at `(0, 12)` is at
distance 0 from it, so it is the first vehicle within `motoRadius` of the pointer, but the
test `moto._renderX && moto._renderY` is false at `_renderX = 0`: the loop skips it and the
click clears the selection, here the selection of that very vehicle. -/
theorem handleClick_skips_zero_coordinate :
    Real.sqrt ((0 - 0) * (0 - 0) + (12 - 12) * (12 - 12)) ≤ (config : Config ℝ).motoRadius ∧
    firstWithinRadius (JsMath.mk Real.sin Real.cos Real.sqrt) 0 12 [motoCached 100 50 0 12]
      = some (motoCached 100 50 0 12) ∧
    (State.mk (40 : ℝ) 24 [motoCached 100 50 0 12]
      (some (motoCached 100 50 0 12))).selectedMoto.isSome = true ∧
    (handleClick (JsMath.mk Real.sin Real.cos Real.sqrt)
      (State.mk 40 24 [motoCached 100 50 0 12] (some (motoCached 100 50 0 12)))
      0 12).2.selectedMoto.isNone = true := by
  have hr : (config : Config ℝ).motoRadius = 15 := rfl
  refine ⟨?_, ?_, rfl, ?_⟩
  · rw [hr]; norm_num
  · simp [firstWithinRadius, motoCached, hr]
  · simp [handleClick, render, firstHit, hit, motoCached]

/-- C4, the code on a marker rendered at a zero coordinate: in a container 40 pixels wide
`resizeCanvas` makes the canvas 40 by 24 and its render caches the centre `(0, 12)` for the
only vehicle, at `(100, 50)`; no vehicle precedes it in the list, and the click at exactly
`(0, 12)` leaves nothing selected. -/
theorem handleClick_at_rendered_centre_misses :
    (resizeCanvas (JsMath.mk Real.sin Real.cos Real.sqrt)
      (State.mk (300 : ℝ) 150 [motoAt 100 50] none) 40).2.width = 40 ∧
    (resizeCanvas (JsMath.mk Real.sin Real.cos Real.sqrt)
      (State.mk (300 : ℝ) 150 [motoAt 100 50] none) 40).2.height = 24 ∧
    (resizeCanvas (JsMath.mk Real.sin Real.cos Real.sqrt)
      (State.mk (300 : ℝ) 150 [motoAt 100 50] none) 40).2.motos = [motoCached 100 50 0 12] ∧
    (handleClick (JsMath.mk Real.sin Real.cos Real.sqrt)
      (resizeCanvas (JsMath.mk Real.sin Real.cos Real.sqrt)
        (State.mk (300 : ℝ) 150 [motoAt 100 50] none) 40).2 0 12).2.selectedMoto.isNone
      = true := by
  have hfloor : ((⌊min (600 : ℝ) (((40 : Nat) : ℝ) * 0.6)⌋₊ : Nat) : ℝ) = 24 := by
    have h24 : min (600 : ℝ) (((40 : Nat) : ℝ) * 0.6) = ((24 : Nat) : ℝ) := by
      rw [min_eq_right] <;> norm_num
    rw [h24, Nat.floor_natCast]
    norm_num
  have hm : (resizeCanvas (JsMath.mk Real.sin Real.cos Real.sqrt)
      (State.mk (300 : ℝ) 150 [motoAt 100 50] none) 40).2.motos = [motoCached 100 50 0 12] := by
    simp only [resizeCanvas, render, drawMotos, drawMotosFrom, drawMoto, placeMoto, motoAt,
      motoCached, config, List.map_cons, List.map_nil, Option.map_some', hfloor]
    norm_num
  refine ⟨?_, ?_, hm, ?_⟩
  · simp [resizeCanvas, render]
  · simp only [resizeCanvas, render, hfloor]
  · rw [handleClick_selectedMoto, hm]
    simp [firstHit, hit, motoCached]

/-- The loop of `handleClick` stops at the vehicle at position `i` when the hit test holds
for it and for no vehicle before it. -/
theorem firstHit_of_first {K : Type} [LinearOrderedField K] (M : JsMath K) (x y : K)
    (motos : List (Moto K)) (i : Nat) (v : Moto K)
    (hv : motos[i]? = some v) (hhit : hit M x y v = true)
    (hearlier : ∀ j u, j < i → motos[j]? = some u → hit M x y u = false) :
    firstHit M x y motos = some v := by
  induction motos generalizing i with
  | nil => simp at hv
  | cons moto rest ih =>
    cases i with
    | zero =>
      simp only [List.getElem?_cons_zero, Option.some.injEq] at hv
      subst hv
      simp [firstHit, hhit]
    | succ k =>
      have h0 : hit M x y moto = false := hearlier 0 moto (Nat.succ_pos k) (by simp)
      simp only [firstHit, h0, Bool.false_eq_true, if_false]
      exact ih k (by simpa using hv) fun j u hj hu =>
        hearlier (j + 1) u (Nat.succ_lt_succ hj) (by simpa using hu)

/-- A click at exactly the cached centre of a vehicle selects it when neither coordinate of
the centre is zero and the hit test fails for every vehicle before it in the list. -/
theorem handleClick_at_centre_selects (s : State ℝ) (i : Nat) (v : Moto ℝ) (cx cy : ℝ)
    (hv : s.motos[i]? = some v) (hcx : v._renderX = some cx) (hcy : v._renderY = some cy)
    (hnz : cx ≠ 0 ∧ cy ≠ 0)
    (hearlier : ∀ j u, j < i → s.motos[j]? = some u →
      hit (JsMath.mk Real.sin Real.cos Real.sqrt) cx cy u = false) :
    (handleClick (JsMath.mk Real.sin Real.cos Real.sqrt) s cx cy).2.selectedMoto = some v := by
  rw [handleClick_selectedMoto]
  refine firstHit_of_first _ cx cy s.motos i v hv ?_ hearlier
  have hr : (config : Config ℝ).motoRadius = 15 := rfl
  simp [hit, hcx, hcy, hnz.1, hnz.2, hr]

/-! ## Selection across a refresh -/

/-- C5, the code on a refresh that changes the selected vehicle: the vehicle with `id` 1 is
selected (status `em_uso`, battery 45, zone B2, at `(25, 50)`) and the next snapshot carries
a record with `id` 1 that is in maintenance in zone A3 with battery 20, at `(75, 10)`. In
the frame `loadMotos` renders, the marker of the new record is highlighted at its new centre
`(580, 80)` in the maintenance colour, but `drawMotoInfo` reads the record held in
`selectedMoto`: the panel shows `em_uso` in the colour `#f59e0b`, battery 45 and zone B2, the
fields of the previous snapshot, not those of the new record. -/
theorem loadMotos_panel_shows_previous_record :
    (motoCached (25 : ℚ) 50 220 240).id = some 1 ∧ (motoRefreshed : Moto ℚ).id = some 1 ∧
    ((loadMotos constMath
        (State.mk 800 480 [motoCached 25 50 220 240] (some (motoCached 25 50 220 240)))
        (Except.ok (some [motoRefreshed]))).1.map fun frame =>
      frame.markers.map fun marker =>
        (marker.center, marker.fillStyle, marker.strokeStyle, marker.lineWidth, marker.label))
      = some [(some (580, 80), Paint.css "#ef4444", Paint.css "#fff", 3, some "ABC1D23")] ∧
    (((loadMotos constMath
        (State.mk 800 480 [motoCached 25 50 220 240] (some (motoCached 25 50 220 240)))
        (Except.ok (some [motoRefreshed]))).1.bind Frame.info).map
      fun panel => (panel.placa, panel.modelo, panel.status, panel.statusColor,
        panel.bateria, panel.zona))
      = some ("ABC1D23", "CG 160", "em_uso", Paint.css "#f59e0b", some 45, "B2") ∧
    ((fun panel : InfoPanel ℚ =>
        (panel.placa, panel.modelo, panel.status, panel.statusColor, panel.bateria,
          panel.zona))
      (drawMotoInfo motoRefreshed))
      = ("ABC1D23", "CG 160", "manutencao", Paint.css "#ef4444", some 20, "A3") ∧
    ¬ ((loadMotos constMath
        (State.mk 800 480 [motoCached 25 50 220 240] (some (motoCached 25 50 220 240)))
        (Except.ok (some [motoRefreshed]))).1.bind Frame.info).map
      (fun panel => (panel.status, panel.bateria, panel.zona))
      = some ((drawMotoInfo (motoRefreshed : Moto ℚ)).status,
          (drawMotoInfo (motoRefreshed : Moto ℚ)).bateria,
          (drawMotoInfo (motoRefreshed : Moto ℚ)).zona) := by
  refine ⟨rfl, rfl, ?_, ?_, ?_, ?_⟩
  · simp only [loadMotos, render, drawMotos, drawMotosFrom, drawMoto, placeMoto, motoRefreshed,
      motoCached, isSelected, selectedId, statusColor, Colors.get, config, colors,
      Option.getD_some, Option.map_some', List.map_cons, List.map_nil]
    norm_num
    decide
  · simp [loadMotos, render, drawMotoInfo, motoCached, statusColor, Colors.get, colors]
  · simp [drawMotoInfo, motoRefreshed, statusColor, Colors.get, colors]
  · simp [loadMotos, render, drawMotoInfo, motoCached, motoRefreshed]

/-- What a refresh does to a selection in general: when a vehicle with `id` X is selected
and a new snapshot is installed as `loadMotos` does, the render highlights the marker of
every record of the new snapshot with `id` X (outline `#fff`, width 3, plate label), the
panel carries the plate, model, status, battery and zone of the record held in
`selectedMoto`, and that record stays the selection. -/
theorem loadMotos_highlights_new_panel_keeps_selected {K : Type} [LinearOrderedField K]
    (M : JsMath K) (s : State K) (sel : Moto K) (X : Nat) (newMotos : List (Moto K))
    (i : Nat) (r : Moto K)
    (hsel : s.selectedMoto = some sel) (hid : sel.id = some X)
    (hr : newMotos[i]? = some r) (hrid : r.id = some X) :
    ∃ frame marker panel,
      (loadMotos M s (Except.ok (some newMotos))).1 = some frame ∧
      frame.markers[i]? = some marker ∧
      marker.strokeStyle = Paint.css "#fff" ∧ marker.lineWidth = 3 ∧
      marker.label = some r.placa ∧
      frame.info = some panel ∧
      panel.placa = sel.placa ∧ panel.modelo = sel.modelo ∧ panel.status = sel.status ∧
      panel.bateria = sel.bateria ∧ panel.zona = sel.zona ∧
      (loadMotos M s (Except.ok (some newMotos))).2.selectedMoto = some sel := by
  have hselected : isSelected (some sel) r = true := by
    simp [isSelected, selectedId, hid, hrid]
  obtain ⟨h1, h2, h3⟩ := (drawMoto_highlight M s.width s.height (some sel) r (0 + i)).1 hselected
  refine ⟨_, (drawMoto M s.width s.height (some sel) r (0 + i)).1, drawMotoInfo sel, rfl, ?_,
    h1, h2, h3, ?_, rfl, rfl, rfl, rfl, rfl, ?_⟩
  · simp only [render, drawMotos, Option.getD_some, List.getElem?_map, hsel,
      drawMotosFrom_getElem?, hr, Option.map_some']
  · simp [render, hsel]
  · simp [loadMotos, render, hsel]

end PatioMap
